import Mathlib

/-
Shallow embedding of `keras_cv/models/segmentation/deeplab.py` (class
`DeepLabV3` and class `SegmentationHead`).

Tensors are represented by their spatial shapes or by abstract values; each
framework-layer application performed by the code is recorded in an explicit
trace, so that theorems can speak about which layers run, in which order, and
with which configuration.  Machine floats of the original are modelled by `ℚ`.
Python `None` in a shape tuple is `Option.none`; a Python `dict` is an
association list; a raised exception is an explicit error constructor.
-/

/-- Configuration stored by `SegmentationHead.__init__`
(deeplab.py lines 238-258), with the Python default arguments. -/
structure HeadConfig where
  num_classes : Nat
  convolutions : Nat := 2
  filters : Nat := 256
  activations : String := "relu"
  dropout : ℚ := 0
  kernel_size : Nat := 3
  activation : String := "softmax"
  use_bias : Bool := false
  deriving DecidableEq

/-- One framework-layer application performed by the segmentation head. -/
inductive LayerOp where
  | conv (filters kernel_size : Nat) (use_bias : Bool)
  | batchNorm
  | act (name : String)
  | drop (rate : ℚ)
  | classify (num_classes : Nat) (activation : String)
  deriving DecidableEq

/-- The stacked `Conv2D` layers built by the loop in `SegmentationHead.__init__`
(lines 260-272): one layer per `i in range(self.convolutions)`, all sharing
`self.filters`, `self.kernel_size` and `self.use_bias`. -/
def convLayers (cfg : HeadConfig) : List LayerOp :=
  (List.range cfg.convolutions).map fun _ =>
    LayerOp.conv cfg.filters cfg.kernel_size cfg.use_bias

/-- The `BatchNormalization` layers built by the same loop (lines 273-276). -/
def bnLayers (cfg : HeadConfig) : List LayerOp :=
  (List.range cfg.convolutions).map fun _ => LayerOp.batchNorm

/-- The final 1x1 classification convolution built in lines 278-288. -/
def classificationLayer (cfg : HeadConfig) : LayerOp :=
  LayerOp.classify cfg.num_classes cfg.activation

/-- Trace of the `for conv_layer, bn_layer in zip(...)` loop of
`SegmentationHead.call` (lines 307-312): convolution, batch norm, activation,
then dropout only when `self.dropout` is truthy (nonzero). -/
def loopTrace (cfg : HeadConfig) : List LayerOp :=
  ((convLayers cfg).zip (bnLayers cfg)).flatMap fun cb =>
    [cb.1, cb.2, LayerOp.act cfg.activations] ++
      (if cfg.dropout = 0 then [] else [LayerOp.drop cfg.dropout])

/-- Every layer applied by a successful `SegmentationHead.call`: the loop
blocks followed by the final classification projection (line 313). -/
def headTrace (cfg : HeadConfig) : List LayerOp :=
  loopTrace cfg ++ [classificationLayer cfg]

/-- One convolution block as the specification describes it: convolution,
normalization, activation, then dropout exactly when the rate is nonzero. -/
def blockOps (cfg : HeadConfig) : List LayerOp :=
  [LayerOp.conv cfg.filters cfg.kernel_size cfg.use_bias, LayerOp.batchNorm,
      LayerOp.act cfg.activations] ++
    (if cfg.dropout = 0 then [] else [LayerOp.drop cfg.dropout])

/-- Argument of `SegmentationHead.call`: either a Python dict from integer
pyramid level to feature tensor, or any non-dict value (a bare tensor). -/
inductive HeadInput (α : Type) where
  | dict (entries : List (Nat × α))
  | tensor (x : α)
  deriving DecidableEq

/-- Exceptions `SegmentationHead.call` can raise: the explicit `ValueError` of
lines 300-303, and the `StopIteration` that `next(iter(sorted(inputs)))` on
line 305 raises when the dict is empty. -/
inductive CallError where
  | valueError
  | stopIteration
  deriving DecidableEq

/-- Keys of the input dict in the order produced by `sorted(inputs)`
(line 305): ascending. -/
def sortedKeys {α : Type} (entries : List (Nat × α)) : List Nat :=
  (entries.map Prod.fst).insertionSort (fun a b => a ≤ b)

/-- Outcome of one `SegmentationHead.call`: the layer applications that were
performed, and either the selected feature value (looked up at the chosen
level) or the exception raised. -/
structure CallOutcome (α : Type) where
  applied : List LayerOp
  result : Except CallError (Option α)

/-- Embedding of `SegmentationHead.call` (lines 292-313): reject non-dict
input, select `lowest_level = next(iter(sorted(inputs)))`, then run the
convolution blocks and the classification layer on `inputs[lowest_level]`. -/
def headCall {α : Type} (cfg : HeadConfig) (inputs : HeadInput α) :
    CallOutcome α :=
  match inputs with
  | HeadInput.tensor _ => ⟨[], Except.error CallError.valueError⟩
  | HeadInput.dict entries =>
    match (sortedKeys entries).head? with
    | none => ⟨[], Except.error CallError.stopIteration⟩
    | some lowest_level =>
        ⟨headTrace cfg, Except.ok (entries.lookup lowest_level)⟩

/-- Backbone argument of `DeepLabV3.__init__`: whether it is a
`keras.layers.Layer`, the spatial part of its declared `input_shape`, and its
shape transfer functions (feature-map height and width as functions of the
input height and width; the framework propagates an unresolved dimension as
`None`, here `Option.map`). -/
structure Backbone where
  isLayer : Bool
  input_shape : Option Nat × Option Nat
  outH : Nat → Nat
  outW : Nat → Nat

/-- Constructor arguments of `DeepLabV3.__init__` that the embedded logic
depends on, with the Python defaults (`input_shape=(None, None, 3)` keeps only
its spatial part here). -/
structure InitArgs where
  num_classes : Nat
  backbone : Backbone
  input_shape : Option Nat × Option Nat := (none, none)
  weights : Option String := none

/-- Construction steps of `DeepLabV3.__init__`, in source order: the two
validation checks, `utils.parse_model_inputs` (line 77), the shape
resolution block (lines 79-88), the backbone invocation (line 93), spatial
pyramid pooling (lines 94-99), the upsampling layer (lines 100-106), the
segmentation-head assembly and call (lines 108-119), and the optional weight
loading (lines 131-132). -/
inductive Step where
  | checkBackbone
  | checkWeights
  | parseInputs
  | resolveShape
  | callBackbone
  | pooling
  | upsample
  | buildHead
  | loadWeights
  deriving DecidableEq

/-- Exceptions `DeepLabV3.__init__` can raise: the `ValueError` for a
non-layer backbone (lines 61-66), the `ValueError` for a missing weights file
(lines 68-75), the `ValueError` for fully unresolved spatial dimensions
(lines 83-88), the `TypeError` that Python raises on lines 102-103 when `//`
is applied to `None`, the `ZeroDivisionError` when a resolved dimension is
floor-divided by a zero feature-map dimension, and the file-loading error
(an OSError, not a `ValueError`) that `self.load_weights` on line 132 raises
when its target does not exist. -/
inductive InitError where
  | backboneNotLayer
  | weightsNotFound
  | unresolvedShape
  | typeError
  | zeroDivision
  | loadFailed
  deriving DecidableEq

/-- Body of `DeepLabV3.__init__` from line 77 on, after the two validation
checks have passed.  Returns the completed construction steps and either the
spatial shape of the composed model's output tensor or the exception raised.
The spatial pyramid pooling (dilated convolutions with `same` padding) and
the segmentation head (`same`-padded convolutions and a 1x1 projection)
preserve spatial shape, so the output shape is the upsampled shape.  The
upsampling-factor tuple on lines 101-104 is evaluated left to right:
`height // feature_map.shape[1]` first, then `width // feature_map.shape[2]`;
each `//` raises `TypeError` when an operand is `None` and
`ZeroDivisionError` when the divisor is the integer zero. -/
def initBody (a : InitArgs) : List Step × Except InitError (Nat × Nat) :=
  let ish :=
    if a.input_shape.1 = none ∧ a.input_shape.2 = none then
      a.backbone.input_shape
    else a.input_shape
  if ish.1 = none ∧ ish.2 = none then
    ([Step.parseInputs, Step.resolveShape], Except.error InitError.unresolvedShape)
  else
    match ish.1, ish.2 with
    | some h, some w =>
      let fh := a.backbone.outH h
      let fw := a.backbone.outW w
      if fh = 0 ∨ fw = 0 then
        ([Step.parseInputs, Step.resolveShape, Step.callBackbone, Step.pooling],
          Except.error InitError.zeroDivision)
      else
        ([Step.parseInputs, Step.resolveShape, Step.callBackbone, Step.pooling,
            Step.upsample, Step.buildHead],
          Except.ok (fh * (h / fh), fw * (w / fw)))
    | some h, none =>
      if a.backbone.outH h = 0 then
        ([Step.parseInputs, Step.resolveShape, Step.callBackbone, Step.pooling],
          Except.error InitError.zeroDivision)
      else
        ([Step.parseInputs, Step.resolveShape, Step.callBackbone, Step.pooling],
          Except.error InitError.typeError)
    | none, _ =>
      ([Step.parseInputs, Step.resolveShape, Step.callBackbone, Step.pooling],
        Except.error InitError.typeError)

/-- Embedding of `DeepLabV3.__init__` (lines 48-132).  `fileExists` stands for
`tf.io.gfile.exists` composed with `parse_weights`.  Returns the completed
construction steps in order and either the output spatial shape or the
exception raised.  A step is recorded once it completes, so a failing check
leaves no trace entry of its own.  The guard on line 68 is
`if weights and not tf.io.gfile.exists(...)`: Python truthiness makes it
skip the existence check when `weights` is the empty string, while the guard
on line 131 is `if weights is not None`, so an empty-string reference still
reaches `self.load_weights`, which raises a file-loading error when the
resource is missing. -/
def deepLabInit (a : InitArgs) (fileExists : String → Bool) :
    List Step × Except InitError (Nat × Nat) :=
  if a.backbone.isLayer = false then
    ([], Except.error InitError.backboneNotLayer)
  else
    match a.weights with
    | some w =>
      if w ≠ "" ∧ fileExists w = false then
        ([Step.checkBackbone], Except.error InitError.weightsNotFound)
      else
        let r := initBody a
        match r.2 with
        | Except.ok s =>
          if fileExists w = true then
            (Step.checkBackbone :: Step.checkWeights :: r.1 ++ [Step.loadWeights],
              Except.ok s)
          else
            (Step.checkBackbone :: Step.checkWeights :: r.1,
              Except.error InitError.loadFailed)
        | Except.error e =>
          (Step.checkBackbone :: Step.checkWeights :: r.1, Except.error e)
    | none =>
      let r := initBody a
      (Step.checkBackbone :: Step.checkWeights :: r.1, r.2)

/-- Weights argument admissibility: either no weights reference was given, or
the resolved resource exists. -/
def weightsOk (a : InitArgs) (fileExists : String → Bool) : Prop :=
  match a.weights with
  | none => True
  | some w => fileExists w = true

/-- One trainable variable of the model: its framework name and its flattened
entries. -/
structure TrainVar where
  name : String
  values : List ℚ

/-- Substring test, embedding the Python expression `pat in s`. -/
def strContainsSub (s pat : String) : Bool :=
  s.toList.tails.any fun t => pat.toList.isPrefixOf t

/-- Embedding of `tf.nn.l2_loss`: half of the sum of the squared entries. -/
def l2_loss (v : List ℚ) : ℚ :=
  (v.map fun x => x * x).sum / 2

/-- The list `reg_losses` built by `DeepLabV3.train_step` (lines 163-169): one
entry `self.weight_decay * tf.nn.l2_loss(var)` per trainable variable whose
name does not contain the substring `bn`. -/
def regLosses (wd : ℚ) (vs : List TrainVar) : List ℚ :=
  (vs.filter fun v => !(strContainsSub v.name "bn")).map fun v =>
    wd * l2_loss v.values

/-- Error raised inside `train_step`: `tf.math.add_n` (line 170) rejects an
empty argument list. -/
inductive TrainError where
  | addnEmpty
  deriving DecidableEq

/-- Result of one `train_step`: the loss the optimizer minimizes and the
number of optimizer updates performed. -/
structure TrainStepResult where
  total_loss : ℚ
  optimizer_updates : Nat
  deriving DecidableEq

/-- Embedding of `DeepLabV3.train_step` (lines 154-175): compute the primary
task loss, add the weight-decay penalty when `self.weight_decay` is truthy
(summing `reg_losses` with `tf.math.add_n`), then call
`self.optimizer.minimize` exactly once on the combined loss. -/
def train_step (wd : ℚ) (task_loss : ℚ) (vs : List TrainVar) :
    Except TrainError TrainStepResult :=
  if wd = 0 then
    Except.ok ⟨task_loss, 1⟩
  else
    let rl := regLosses wd vs
    if rl = [] then Except.error TrainError.addnEmpty
    else Except.ok ⟨task_loss + rl.sum, 1⟩

/-- The regularization term as the claim words it: the weight-decay
coefficient times the sum of squared values, summed over exactly the trainable
variables whose name does not contain `bn`.  This definition follows the
specification text and is compared against the code's `regLosses`. -/
def claimedRegTerm (wd : ℚ) (vs : List TrainVar) : ℚ :=
  wd * ((vs.filter fun v => !(strContainsSub v.name "bn")).map fun v =>
    (v.values.map fun x => x * x).sum).sum

/-- Values appearing in a serialized layer configuration. -/
inductive CV where
  | nat (n : Nat)
  | str (s : String)
  | rat (q : ℚ)
  | bool (b : Bool)
  | layer (name : String)
  deriving DecidableEq

/-- Attributes stored on `self` by `DeepLabV3.__init__` (lines 135-140); the
three sub-layer attributes are represented by identifying names. -/
structure DeepLabFields where
  num_classes : Nat
  backbone : String
  spatial_pyramid_pooling : String
  segmentation_head : String
  segmentation_head_activation : String
  weight_decay : ℚ
  deriving DecidableEq

/-- Embedding of `DeepLabV3.get_config` (lines 177-185): exactly the six
stored attributes, with no base-class configuration merged in. -/
def deepLabGetConfig (m : DeepLabFields) : List (String × CV) :=
  [("num_classes", CV.nat m.num_classes),
   ("backbone", CV.layer m.backbone),
   ("spatial_pyramid_pooling", CV.layer m.spatial_pyramid_pooling),
   ("segmentation_head", CV.layer m.segmentation_head),
   ("segmentation_head_activation", CV.str m.segmentation_head_activation),
   ("weight_decay", CV.rat m.weight_decay)]

/-- The external framework's base layer configuration
(`keras.layers.Layer.get_config`), which always contains at least the layer's
name together with its trainable flag and dtype. -/
def baseLayerConfig (name : String) : List (String × CV) :=
  [("name", CV.str name),
   ("trainable", CV.bool true),
   ("dtype", CV.str "float32")]

/-- The head's own configuration entries (lines 316-325), in source order. -/
def headOwnConfig (cfg : HeadConfig) : List (String × CV) :=
  [("num_classes", CV.nat cfg.num_classes),
   ("convolutions", CV.nat cfg.convolutions),
   ("filters", CV.nat cfg.filters),
   ("activations", CV.str cfg.activations),
   ("dropout", CV.rat cfg.dropout),
   ("kernel_size", CV.nat cfg.kernel_size),
   ("use_bias", CV.bool cfg.use_bias),
   ("activation", CV.str cfg.activation)]

/-- Key list of a Python dict built from an item list: first occurrence
order, one entry per key. -/
def dedupKeys (l : List String) : List String :=
  l.foldl (fun acc k => if k ∈ acc then acc else acc ++ [k]) []

/-- Python `dict(items)`: first-occurrence key order, and for a duplicated
key the last value wins. -/
def pyDict (l : List (String × CV)) : List (String × CV) :=
  (dedupKeys (l.map Prod.fst)).map fun k =>
    (k, (l.reverse.lookup k).getD (CV.str ""))

/-- Embedding of `SegmentationHead.get_config` (lines 315-327):
`dict(list(base_config.items()) + list(config.items()))`, where
`base_config = super().get_config()`. -/
def headGetConfig (name : String) (cfg : HeadConfig) : List (String × CV) :=
  pyDict (baseLayerConfig name ++ headOwnConfig cfg)

/-- The eight keys the specification lists for the head's persisted
configuration. -/
def headOwnKeys : List String :=
  ["num_classes", "convolutions", "filters", "activations", "dropout",
   "kernel_size", "use_bias", "activation"]

instance {ε α : Type} [DecidableEq ε] [DecidableEq α] : DecidableEq (Except ε α) := fun a b =>
  match a, b with
  | Except.ok x, Except.ok y =>
    if h : x = y then isTrue (by rw [h]) else isFalse (by intro hc; cases hc; exact h rfl)
  | Except.error x, Except.error y =>
    if h : x = y then isTrue (by rw [h]) else isFalse (by intro hc; cases hc; exact h rfl)
  | Except.ok _, Except.error _ => isFalse (by intro hc; cases hc)
  | Except.error _, Except.ok _ => isFalse (by intro hc; cases hc)

lemma head_insertionSort_min (l : List Nat) (h : l ≠ []) :
    ∃ m, (l.insertionSort (fun a b => a ≤ b)).head? = some m ∧ m ∈ l ∧ ∀ k ∈ l, m ≤ k := by
  have hperm := List.perm_insertionSort (fun a b => a ≤ b) l
  have hsorted := List.sorted_insertionSort (fun a b => a ≤ b) l
  cases hms : l.insertionSort (fun a b => a ≤ b) with
  | nil =>
    rw [hms] at hperm
    exact absurd hperm.symm.eq_nil h
  | cons m t =>
    rw [hms] at hperm hsorted
    refine ⟨m, rfl, hperm.mem_iff.mp (List.mem_cons_self m t), ?_⟩
    intro k hk
    rcases List.mem_cons.mp (hperm.mem_iff.mpr hk) with hkm | hkt
    · omega
    · exact List.rel_of_sorted_cons hsorted k hkt

lemma map_const_range {α : Type} (c : α) (n : Nat) :
    (List.range n).map (fun _ => c) = List.replicate n c := by
  induction n with
  | zero => rfl
  | succ k ih =>
    rw [List.range_succ, List.map_append, ih, List.replicate_succ']
    rfl

lemma zip_replicate_pair {α β : Type} (a : α) (b : β) (n : Nat) :
    (List.replicate n a).zip (List.replicate n b) = List.replicate n (a, b) := by
  induction n with
  | zero => rfl
  | succ k ih => simp [List.replicate_succ, ih]

lemma loopTrace_eq_replicate (cfg : HeadConfig) :
    loopTrace cfg = (List.replicate cfg.convolutions (blockOps cfg)).flatten := by
  rw [loopTrace, convLayers, bnLayers, map_const_range, map_const_range,
    zip_replicate_pair, List.flatMap_def, List.map_replicate]
  rfl

/-- Claim C4: for every non-empty mapping from integer pyramid-level keys to
feature tensors, `SegmentationHead.call` consumes exactly the tensor at the
numerically smallest key (the first key after sorting ascending); in
particular, for a mapping with keys 3, 4, 5 it selects the tensor at key 3. -/
theorem head_selects_smallest_key {α : Type} (cfg : HeadConfig) :
    (∀ entries : List (Nat × α), entries ≠ [] →
        ∃ m, (sortedKeys entries).head? = some m ∧ m ∈ entries.map Prod.fst ∧
          (∀ k ∈ entries.map Prod.fst, m ≤ k) ∧
          headCall cfg (HeadInput.dict entries) =
            ⟨headTrace cfg, Except.ok (entries.lookup m)⟩)
  ∧ (∀ v3 v4 v5 : α, headCall cfg (HeadInput.dict [(3, v3), (4, v4), (5, v5)]) =
      ⟨headTrace cfg, Except.ok (some v3)⟩) := by
  constructor
  · intro entries hne
    have hmapne : entries.map Prod.fst ≠ [] := by
      simpa using hne
    obtain ⟨m, hm, hmem, hmin⟩ := head_insertionSort_min (entries.map Prod.fst) hmapne
    refine ⟨m, hm, hmem, hmin, ?_⟩
    simp only [headCall, sortedKeys]
    rw [hm]
  · intro v3 v4 v5
    rfl

/-- Witness for claim C4 at the concrete mapping with keys 3, 4, 5, value
strings p3, p4, p5, and the head configuration the composed model builds by
default. -/
theorem head_selects_smallest_key_witness :
    ∃ m, (sortedKeys [(3, "p3"), (4, "p4"), (5, "p5")]).head? = some m ∧
      m ∈ ([(3, "p3"), (4, "p4"), (5, "p5")] : List (Nat × String)).map Prod.fst ∧
      (∀ k ∈ ([(3, "p3"), (4, "p4"), (5, "p5")] : List (Nat × String)).map Prod.fst, m ≤ k) ∧
      headCall ⟨11, 1, 256, "relu", 0, 1, "softmax", false⟩
          (HeadInput.dict [(3, "p3"), (4, "p4"), (5, "p5")]) =
        ⟨headTrace ⟨11, 1, 256, "relu", 0, 1, "softmax", false⟩,
          Except.ok ([(3, "p3"), (4, "p4"), (5, "p5")].lookup m)⟩ :=
  (head_selects_smallest_key ⟨11, 1, 256, "relu", 0, 1, "softmax", false⟩).1
    [(3, "p3"), (4, "p4"), (5, "p5")] (by simp)

/-- Claim C5: the forward pass of a head configured with convolution count N
applies exactly N blocks in order, each block being convolution, then
normalization, then activation, then dropout only when the rate is nonzero,
all blocks sharing the configured filters, kernel size and bias setting,
before the final classification projection; when N is zero the selected
tensor is projected directly. -/
theorem head_applies_configured_blocks (cfg : HeadConfig) :
    (∀ {α : Type} (entries : List (Nat × α)), entries ≠ [] →
        (headCall cfg (HeadInput.dict entries)).applied = headTrace cfg)
  ∧ headTrace cfg =
      (List.replicate cfg.convolutions (blockOps cfg)).flatten ++ [classificationLayer cfg]
  ∧ (cfg.convolutions = 0 → headTrace cfg = [classificationLayer cfg]) := by
  refine ⟨?_, ?_, ?_⟩
  · intro α entries hne
    obtain ⟨m, hm, -, -, hcall⟩ :=
      (head_selects_smallest_key (α := α) cfg).1 entries hne
    rw [hcall]
  · rw [headTrace, loopTrace_eq_replicate]
  · intro h0
    rw [headTrace, loopTrace_eq_replicate, h0]
    rfl

/-- Witness for claim C5: a head with one convolution block and dropout 1/5
applied to a one-entry mapping, and a head with zero convolutions projecting
directly. -/
theorem head_applies_configured_blocks_witness :
    (headCall ⟨11, 1, 256, "relu", 1/5, 1, "softmax", false⟩
        (HeadInput.dict [(1, 42)])).applied =
      headTrace ⟨11, 1, 256, "relu", 1/5, 1, "softmax", false⟩
  ∧ headTrace ⟨7, 0, 256, "relu", 0, 3, "softmax", false⟩ =
      [classificationLayer ⟨7, 0, 256, "relu", 0, 3, "softmax", false⟩] :=
  ⟨(head_applies_configured_blocks ⟨11, 1, 256, "relu", 1/5, 1, "softmax", false⟩).1
      [(1, 42)] (by simp),
    (head_applies_configured_blocks ⟨7, 0, 256, "relu", 0, 3, "softmax", false⟩).2.2 rfl⟩

/-- Claim C9: for every input to the segmentation head's forward pass that is
not a mapping, the call raises the `ValueError` of lines 300-303, and no
convolution, normalization or projection is applied (the trace of layer
applications is empty). -/
theorem head_rejects_non_dict {α : Type} (cfg : HeadConfig) (x : α) :
    headCall cfg (HeadInput.tensor x) = ⟨[], Except.error CallError.valueError⟩ :=
  rfl

/-- Claim C10: calling the head with an empty mapping passes the dict-type
check and fails at `next(iter(sorted(inputs)))` with `StopIteration`, which is
a different exception than the `ValueError` used for non-dict input; no layer
is applied and no explicit non-emptiness validation exists. -/
theorem head_empty_dict_stopIteration {α : Type} (cfg : HeadConfig) :
    headCall cfg (HeadInput.dict ([] : List (Nat × α))) =
      ⟨[], Except.error CallError.stopIteration⟩
  ∧ CallError.stopIteration ≠ CallError.valueError :=
  ⟨rfl, by decide⟩

/-- Claim C8: constructing a DeepLabV3 model whose backbone does not satisfy
the layer capability raises the configuration error of lines 61-66, and this
check runs before any other construction step (the step trace is empty). -/
theorem init_rejects_non_layer_backbone (a : InitArgs) (fs : String → Bool)
    (h : a.backbone.isLayer = false) :
    deepLabInit a fs = ([], Except.error InitError.backboneNotLayer) := by
  simp [deepLabInit, h]

/-- Witness for claim C8 at a concrete non-layer backbone. -/
theorem init_rejects_non_layer_backbone_witness :
    deepLabInit ⟨21, ⟨false, (none, none), id, id⟩, (none, none), none⟩ (fun _ => false) =
      ([], Except.error InitError.backboneNotLayer) :=
  init_rejects_non_layer_backbone ⟨21, ⟨false, (none, none), id, id⟩, (none, none), none⟩
    (fun _ => false) rfl

/-- Counterexample to claim C6: an empty-string weights reference whose
resolved resource does not exist.  Python truthiness (`if weights and ...`,
line 68) skips the existence check, construction performs input parsing, the
backbone invocation, pooling and head assembly, and only the final
`load_weights` (guarded by `if weights is not None`, line 131) fails, with a
file-loading error rather than the configuration `ValueError`. -/
theorem init_missing_weights_counterexample :
    (deepLabInit ⟨21, ⟨true, (some 64, some 64), fun x => x / 4, fun x => x / 4⟩,
        (some 64, some 64), some ""⟩ (fun _ => false)).2 = Except.error InitError.loadFailed
  ∧ InitError.loadFailed ≠ InitError.weightsNotFound
  ∧ Step.parseInputs ∈ (deepLabInit ⟨21, ⟨true, (some 64, some 64),
        fun x => x / 4, fun x => x / 4⟩, (some 64, some 64), some ""⟩ (fun _ => false)).1
  ∧ Step.callBackbone ∈ (deepLabInit ⟨21, ⟨true, (some 64, some 64),
        fun x => x / 4, fun x => x / 4⟩, (some 64, some 64), some ""⟩ (fun _ => false)).1
  ∧ Step.pooling ∈ (deepLabInit ⟨21, ⟨true, (some 64, some 64),
        fun x => x / 4, fun x => x / 4⟩, (some 64, some 64), some ""⟩ (fun _ => false)).1
  ∧ Step.buildHead ∈ (deepLabInit ⟨21, ⟨true, (some 64, some 64),
        fun x => x / 4, fun x => x / 4⟩, (some 64, some 64), some ""⟩ (fun _ => false)).1 := by
  refine ⟨rfl, by decide, by decide, by decide, by decide, by decide⟩

/-- Claim C6 as amended: constructing with a non-empty (truthy) weights
reference whose resolved resource does not exist raises the configuration
error of lines 68-75 before any computation occurs: before input parsing,
backbone invocation, pooling, or head assembly.  An empty-string reference
skips the check by Python truthiness and completes those computation steps
before failing at weight loading. -/
theorem init_missing_weights_error (a : InitArgs) (fs : String → Bool) (w : String)
    (hb : a.backbone.isLayer = true) (hw : a.weights = some w) (hne : w ≠ "")
    (hf : fs w = false) :
    (deepLabInit a fs).2 = Except.error InitError.weightsNotFound
  ∧ (deepLabInit a fs).1 = [Step.checkBackbone]
  ∧ Step.parseInputs ∉ (deepLabInit a fs).1
  ∧ Step.callBackbone ∉ (deepLabInit a fs).1
  ∧ Step.pooling ∉ (deepLabInit a fs).1
  ∧ Step.buildHead ∉ (deepLabInit a fs).1 := by
  simp [deepLabInit, hb, hw, hne, hf]

/-- Witness for claim C6 as amended, at a concrete layer backbone, a
non-empty weights reference, and an empty file system. -/
theorem init_missing_weights_error_witness :
    (deepLabInit ⟨21, ⟨true, (some 64, some 64), id, id⟩, (some 64, some 64),
        some "voc/segmentation"⟩ (fun _ => false)).2 =
      Except.error InitError.weightsNotFound
  ∧ (deepLabInit ⟨21, ⟨true, (some 64, some 64), id, id⟩, (some 64, some 64),
        some "voc/segmentation"⟩ (fun _ => false)).1 = [Step.checkBackbone]
  ∧ Step.parseInputs ∉ (deepLabInit ⟨21, ⟨true, (some 64, some 64), id, id⟩,
        (some 64, some 64), some "voc/segmentation"⟩ (fun _ => false)).1
  ∧ Step.callBackbone ∉ (deepLabInit ⟨21, ⟨true, (some 64, some 64), id, id⟩,
        (some 64, some 64), some "voc/segmentation"⟩ (fun _ => false)).1
  ∧ Step.pooling ∉ (deepLabInit ⟨21, ⟨true, (some 64, some 64), id, id⟩,
        (some 64, some 64), some "voc/segmentation"⟩ (fun _ => false)).1
  ∧ Step.buildHead ∉ (deepLabInit ⟨21, ⟨true, (some 64, some 64), id, id⟩,
        (some 64, some 64), some "voc/segmentation"⟩ (fun _ => false)).1 :=
  init_missing_weights_error _ _ "voc/segmentation" rfl rfl (by decide) rfl

/-- Counterexample to claim C3: with `input_shape=(None, 224, 3)` (only the
height unresolved) and a layer backbone with fully declared input shape,
construction does not fail with the configuration error for unresolved
shapes; it runs the backbone and the pooling and then fails with the
`TypeError` of the integer division on line 102. -/
theorem init_shape_resolution_counterexample :
    (deepLabInit ⟨21, ⟨true, (some 64, some 64), fun h => h / 32, fun w => w / 32⟩,
        (none, some 224), none⟩ (fun _ => false)).2 = Except.error InitError.typeError
  ∧ InitError.typeError ≠ InitError.unresolvedShape
  ∧ Step.callBackbone ∈ (deepLabInit ⟨21, ⟨true, (some 64, some 64),
        fun h => h / 32, fun w => w / 32⟩, (none, some 224), none⟩ (fun _ => false)).1 := by
  refine ⟨rfl, by decide, by decide⟩

/-- Claim C3 as amended: inference from the backbone's declared input shape
happens only when both spatial dimensions are unspecified, and the
configuration error is raised only when both dimensions are still unresolved
after inference; when exactly one dimension is unresolved, construction
instead fails later at the upsampling-factor division, with a type error —
except that, when the height is resolved and its feature-map dimension is
zero, the left-to-right evaluation of the factor tuple raises the
zero-division error first. -/
theorem init_shape_resolution (a : InitArgs) (fs : String → Bool)
    (hb : a.backbone.isLayer = true) (hw : weightsOk a fs) :
    (a.input_shape = (none, none) →
        deepLabInit a fs = deepLabInit { a with input_shape := a.backbone.input_shape } fs)
  ∧ (a.input_shape = (none, none) → a.backbone.input_shape = (none, none) →
        (deepLabInit a fs).2 = Except.error InitError.unresolvedShape)
  ∧ (∀ w, a.input_shape = (none, some w) →
        (deepLabInit a fs).2 = Except.error InitError.typeError)
  ∧ (∀ h, a.input_shape = (some h, none) →
        (a.backbone.outH h = 0 →
          (deepLabInit a fs).2 = Except.error InitError.zeroDivision)
      ∧ (a.backbone.outH h ≠ 0 →
          (deepLabInit a fs).2 = Except.error InitError.typeError)) := by
  refine ⟨?_, ?_, ?_, ?_⟩
  · intro h1
    have hib : initBody a = initBody { a with input_shape := a.backbone.input_shape } := by
      simp [initBody, h1]
    cases haw : a.weights with
    | none => simp [deepLabInit, hb, haw, hib]
    | some w => simp [deepLabInit, hb, haw, hib]
  · intro h1 h2
    cases haw : a.weights with
    | none => simp [deepLabInit, hb, haw, initBody, h1, h2]
    | some w =>
      have hfw : fs w = true := by simpa [weightsOk, haw] using hw
      simp [deepLabInit, hb, haw, hfw, initBody, h1, h2]
  · intro w h1
    cases haw : a.weights with
    | none => simp [deepLabInit, hb, haw, initBody, h1]
    | some u =>
      have hfw : fs u = true := by simpa [weightsOk, haw] using hw
      simp [deepLabInit, hb, haw, hfw, initBody, h1]
  · intro h h1
    constructor <;> intro hz <;> cases haw : a.weights with
    | none => simp [deepLabInit, hb, haw, initBody, h1, hz]
    | some u =>
      have hfw : fs u = true := by simpa [weightsOk, haw] using hw
      simp [deepLabInit, hb, haw, hfw, initBody, h1, hz]

/-- Witness for claim C3 as amended: a layer backbone with fully unresolved
declared input shape and an unspecified constructor input shape yield the
unresolved-shape configuration error. -/
theorem init_shape_resolution_witness :
    (deepLabInit ⟨21, ⟨true, (none, none), id, id⟩, (none, none), none⟩ (fun _ => false)).2 =
      Except.error InitError.unresolvedShape :=
  (init_shape_resolution ⟨21, ⟨true, (none, none), id, id⟩, (none, none), none⟩
    (fun _ => false) rfl trivial).2.1 rfl rfl

/-- Counterexample to claim C1: a valid (layer) backbone that maps a 5 by 5
input to a 2 by 2 feature map.  The upsampling factor is the floor of 5 / 2,
namely 2, so the composed model's output resolution is 4 by 4, not the input
resolution 5 by 5. -/
theorem upsampling_round_trip_counterexample :
    (deepLabInit ⟨21, ⟨true, (some 64, some 64), fun h => h / 2, fun w => w / 2⟩,
        (some 5, some 5), none⟩ (fun _ => false)).2 = Except.ok (4, 4)
  ∧ ((4 : Nat), (4 : Nat)) ≠ ((5 : Nat), (5 : Nat)) :=
  ⟨rfl, by decide⟩

/-- Claim C1 as amended: with a valid backbone and fully resolved input shape,
the composed model's output spatial resolution is the backbone output
dimension times the floor of the input dimension over the backbone output
dimension on each axis; it equals the input resolution exactly when each
backbone output dimension divides the corresponding input dimension. -/
theorem upsampling_round_trip (a : InitArgs) (fs : String → Bool) (h w : Nat)
    (hb : a.backbone.isLayer = true) (hwt : weightsOk a fs)
    (hish : a.input_shape = (some h, some w))
    (hfh : a.backbone.outH h ≠ 0) (hfw : a.backbone.outW w ≠ 0) :
    (deepLabInit a fs).2 =
      Except.ok (a.backbone.outH h * (h / a.backbone.outH h),
        a.backbone.outW w * (w / a.backbone.outW w))
  ∧ (a.backbone.outH h ∣ h → a.backbone.outW w ∣ w →
      (deepLabInit a fs).2 = Except.ok (h, w)) := by
  have hmain : (deepLabInit a fs).2 =
      Except.ok (a.backbone.outH h * (h / a.backbone.outH h),
        a.backbone.outW w * (w / a.backbone.outW w)) := by
    cases haw : a.weights with
    | none => simp [deepLabInit, hb, haw, initBody, hish, hfh, hfw]
    | some u =>
      have hfu : fs u = true := by simpa [weightsOk, haw] using hwt
      simp [deepLabInit, hb, haw, hfu, initBody, hish, hfh, hfw]
  refine ⟨hmain, fun hdh hdw => ?_⟩
  rw [hmain, Nat.mul_div_cancel' hdh, Nat.mul_div_cancel' hdw]

/-- Witness for claim C1 as amended: a layer backbone that divides each
spatial dimension by 4 on a 64 by 64 input reproduces the 64 by 64 output
resolution. -/
theorem upsampling_round_trip_witness :
    (deepLabInit ⟨21, ⟨true, (none, none), fun x => x / 4, fun x => x / 4⟩,
        (some 64, some 64), none⟩ (fun _ => false)).2 = Except.ok (64, 64) :=
  (upsampling_round_trip ⟨21, ⟨true, (none, none), fun x => x / 4, fun x => x / 4⟩,
      (some 64, some 64), none⟩ (fun _ => false) 64 64 rfl trivial rfl
      (by decide) (by decide)).2 (by decide) (by decide)

lemma sum_map_half (wd : ℚ) (l : List TrainVar) :
    (l.map fun v => wd * l2_loss v.values).sum =
      wd * (l.map fun v => (v.values.map fun x => x * x).sum).sum / 2 := by
  induction l with
  | nil => simp
  | cons v t ih =>
    rw [List.map_cons, List.sum_cons, List.map_cons, List.sum_cons, ih, l2_loss]
    ring

/-- Counterexample to claim C2: one trainable variable named conv_kernel with
single entry 2 and weight decay 1.  The claim's regularization term is
1 times 2 squared, namely 4, but the code adds 1 times `tf.nn.l2_loss`,
namely half of that, so the combined loss is 2, not 0 plus 4. -/
theorem train_step_reg_counterexample :
    train_step 1 0 [⟨"conv_kernel", [2]⟩] = Except.ok ⟨2, 1⟩
  ∧ claimedRegTerm 1 [⟨"conv_kernel", [2]⟩] = 4
  ∧ ((2 : ℚ) ≠ 0 + 4) := by
  refine ⟨?_, ?_, by norm_num⟩
  · simp +decide [train_step, regLosses, l2_loss]
  · simp +decide [claimedRegTerm]
    norm_num

/-- Claim C2 as amended: with a nonzero weight-decay coefficient and at least
one trainable parameter whose name does not contain bn, the term added to the
task loss is the coefficient times half the sum of squared values, summed
over exactly the parameters whose name does not contain bn, and one optimizer
update is performed on the combined loss. -/
theorem train_step_reg (wd task : ℚ) (vs : List TrainVar) (hwd : wd ≠ 0)
    (hne : regLosses wd vs ≠ []) :
    train_step wd task vs = Except.ok ⟨task + claimedRegTerm wd vs / 2, 1⟩ := by
  simp only [train_step]
  rw [if_neg hwd, if_neg hne, regLosses, sum_map_half, claimedRegTerm]

/-- Witness for claim C2 as amended at the counterexample's input. -/
theorem train_step_reg_witness :
    train_step 1 0 [⟨"conv_kernel", [2]⟩] =
      Except.ok ⟨0 + claimedRegTerm 1 [⟨"conv_kernel", [2]⟩] / 2, 1⟩ :=
  train_step_reg 1 0 [⟨"conv_kernel", [2]⟩] (by norm_num)
    (by simp +decide [regLosses])

/-- Counterexample to claim C7: the head's persisted configuration contains
the base layer key name, which is not among the eight keys the claim lists,
so the head configuration is not exactly that set. -/
theorem get_config_counterexample :
    "name" ∈ (headGetConfig "segmentation_head"
        ⟨21, 1, 256, "relu", 0, 1, "softmax", false⟩).map Prod.fst
  ∧ "name" ∉ headOwnKeys := by
  decide

lemma headGetConfig_expand (name : String) (cfg : HeadConfig) :
    headGetConfig name cfg = baseLayerConfig name ++ headOwnConfig cfg := by
  simp [headGetConfig, pyDict, dedupKeys, baseLayerConfig, headOwnConfig, List.lookup]

/-- Claim C7 as amended: the model's persisted configuration is exactly the
six listed entries with the stored values; the head's persisted configuration
is the framework's base layer configuration merged with exactly the eight
listed entries, each of the eight equal to the stored value. -/
theorem get_config_surface (m : DeepLabFields) (name : String) (cfg : HeadConfig) :
    (deepLabGetConfig m).map Prod.fst =
      ["num_classes", "backbone", "spatial_pyramid_pooling", "segmentation_head",
        "segmentation_head_activation", "weight_decay"]
  ∧ (deepLabGetConfig m).lookup "num_classes" = some (CV.nat m.num_classes)
  ∧ (deepLabGetConfig m).lookup "backbone" = some (CV.layer m.backbone)
  ∧ (deepLabGetConfig m).lookup "spatial_pyramid_pooling" =
      some (CV.layer m.spatial_pyramid_pooling)
  ∧ (deepLabGetConfig m).lookup "segmentation_head" = some (CV.layer m.segmentation_head)
  ∧ (deepLabGetConfig m).lookup "segmentation_head_activation" =
      some (CV.str m.segmentation_head_activation)
  ∧ (deepLabGetConfig m).lookup "weight_decay" = some (CV.rat m.weight_decay)
  ∧ (headGetConfig name cfg).map Prod.fst = ["name", "trainable", "dtype"] ++ headOwnKeys
  ∧ (headGetConfig name cfg).lookup "name" = some (CV.str name)
  ∧ (headGetConfig name cfg).lookup "num_classes" = some (CV.nat cfg.num_classes)
  ∧ (headGetConfig name cfg).lookup "convolutions" = some (CV.nat cfg.convolutions)
  ∧ (headGetConfig name cfg).lookup "filters" = some (CV.nat cfg.filters)
  ∧ (headGetConfig name cfg).lookup "activations" = some (CV.str cfg.activations)
  ∧ (headGetConfig name cfg).lookup "dropout" = some (CV.rat cfg.dropout)
  ∧ (headGetConfig name cfg).lookup "kernel_size" = some (CV.nat cfg.kernel_size)
  ∧ (headGetConfig name cfg).lookup "use_bias" = some (CV.bool cfg.use_bias)
  ∧ (headGetConfig name cfg).lookup "activation" = some (CV.str cfg.activation) := by
  refine ⟨by simp [deepLabGetConfig], by simp [deepLabGetConfig, List.lookup],
    by simp [deepLabGetConfig, List.lookup], by simp [deepLabGetConfig, List.lookup],
    by simp [deepLabGetConfig, List.lookup], by simp [deepLabGetConfig, List.lookup],
    by simp [deepLabGetConfig, List.lookup], ?_, ?_, ?_, ?_, ?_, ?_, ?_, ?_, ?_, ?_⟩ <;>
    · rw [headGetConfig_expand]
      simp [baseLayerConfig, headOwnConfig, headOwnKeys, List.lookup]
